import Mathlib

/-!
Shallow embedding of the speech-capture-to-translation pipeline of
`src/static/main.js` (health-translate).

The page state visible to the handlers is collected in `State`; every
event handler of the script becomes a pure function on `State`, with the
network requests it issues and the synthesis actions it performs returned
as explicit lists.  JavaScript string truthiness (`s || t`) is modelled by
`jsOr`, with an absent field represented by the empty string (both are
falsy exactly when the string is empty).
-/

namespace HealthTranslate

/-- JavaScript `a || b` on strings: `b` when `a` is falsy (empty). -/
def jsOr (a b : String) : String := if a = "" then b else a

/-- JavaScript `s.trim()`: the string without its leading and trailing
whitespace, written on the character list so that it evaluates by
structural recursion. -/
def jsTrim (s : String) : String :=
  ⟨((s.data.dropWhile Char.isWhitespace).reverse.dropWhile
      Char.isWhitespace).reverse⟩

/-- One entry of a recognition result window: `event.results[i][0].transcript`
together with `event.results[i].isFinal`. -/
structure RecResult where
  transcript : String
  isFinal : Bool

deriving instance DecidableEq, Repr for RecResult

/-- The JSON body of a `/translate` response; a field the server omitted is
the empty string (falsy, as `undefined` is in the script). -/
structure TranslationResponse where
  error : String
  detail : String
  translated : String

deriving instance DecidableEq, Repr for TranslationResponse

/-- The body of the POST to `/translate` built in `sendForTranslation`. -/
structure TranslationRequest where
  text : String
  source : String
  target : String

deriving instance DecidableEq, Repr for TranslationRequest

/-- A voice reported by `window.speechSynthesis.getVoices()`. -/
structure Voice where
  lang : String

deriving instance DecidableEq, Repr for Voice

/-- The mutable page state read and written by the handlers of `main.js`:
the `finalTranscript` variable, the `orig` textarea value, the `translated`
div text, the three buttons' disabled flags, `recognition.lang`, and the two
language selectors. -/
structure State where
  finalTranscript : String
  origValue : String
  translatedText : String
  startDisabled : Bool
  stopDisabled : Bool
  playDisabled : Bool
  recLang : String
  sourceLang : String
  targetLang : String

deriving instance DecidableEq, Repr for State

/-- Body of the loop in `recognition.onresult`: a final result appends its
transcript plus a space to `finalTranscript`, a non-final result appends its
transcript to the batch-local `interim` accumulator. -/
def batchStep : String × String → RecResult → String × String
  | (fin, interim), r =>
    if r.isFinal then (fin ++ r.transcript ++ " ", interim)
    else (fin, interim ++ r.transcript)

/-- `recognition.onresult`: fold the result window (from `resultIndex` to the
end) through `batchStep`, then publish `(finalTranscript + interim).trim()`
to the textarea. -/
def onRecognitionUpdate (s : State) (results : List RecResult) : State :=
  let p := results.foldl batchStep (s.finalTranscript, "")
  { s with finalTranscript := p.1, origValue := jsTrim (p.1 ++ p.2) }

/-- Processing a whole sequence of `onresult` batches in order. -/
def processBatches (s : State) (batches : List (List RecResult)) : State :=
  batches.foldl onRecognitionUpdate s

/-- The transcripts of the final results of a batch, in order. -/
def finalsOf (results : List RecResult) : List String :=
  (results.filter (fun r => r.isFinal)).map RecResult.transcript

/-- The transcripts of the non-final results of a batch, in order. -/
def interimsOf (results : List RecResult) : List String :=
  (results.filter (fun r => !r.isFinal)).map RecResult.transcript

/-- Join segments the way `onresult` does for final results: each followed by
one space. -/
def joinSegs : List String → String
  | [] => ""
  | t :: ts => t ++ " " ++ joinSegs ts

/-- Plain concatenation of a list of strings. -/
def joinAll : List String → String
  | [] => ""
  | t :: ts => t ++ joinAll ts

/-- The batch-local `interim` value left by the loop of `onresult`. -/
def interimOf (results : List RecResult) : String :=
  (results.foldl batchStep ("", "")).2

/-- The lookup table of `mapLangCode`. -/
def mapLangCodeTable : List (String × String) :=
  [("en", "en-US"), ("es", "es-ES"), ("hi", "hi-IN"), ("ta", "ta-IN"),
   ("auto", "en-US")]

/-- `mapLangCode(code)`: `map[code] || "en-US"` (a missing key yields the
falsy `undefined`, modelled as `""`). -/
def mapLangCode (code : String) : String :=
  jsOr ((mapLangCodeTable.lookup code).getD "") "en-US"

/-- The lookup table of `mapLocaleFromCode`. -/
def mapLocaleFromCodeTable : List (String × String) :=
  [("en", "en"), ("es", "es"), ("hi", "hi"), ("ta", "ta")]

/-- `mapLocaleFromCode(code)`: `m[code] || "en"`. -/
def mapLocaleFromCode (code : String) : String :=
  jsOr ((mapLocaleFromCodeTable.lookup code).getD "") "en"

/-- The synchronous part of `sendForTranslation`, up to the `await fetch`:
show the working placeholder, disable playback, and issue the one POST
carrying the current source/target selector values. -/
def sendForTranslationStart (s : State) (text : String) :
    State × List TranslationRequest :=
  ({ s with translatedText := "Translating...", playDisabled := true },
   [{ text := text, source := s.sourceLang, target := s.targetLang }])

/-- The continuation of `sendForTranslation` once the network call settles:
`Except.error` is the `catch` branch (transport failure), `Except.ok j` is a
parsed response body. -/
def handleTranslationResponse (s : State)
    (outcome : Except String TranslationResponse) : State :=
  match outcome with
  | Except.error err => { s with translatedText := "Network error: " ++ err }
  | Except.ok j =>
    if j.error ≠ "" then
      { s with translatedText := "Error: " ++ jsOr j.detail j.error }
    else
      { s with translatedText := jsOr j.translated "(no translation)",
               playDisabled := false }

/-- `recognition.onend`: re-enable start, disable stop, and auto-submit the
trimmed textarea content for translation when it is non-empty. -/
def onCaptureEnd (s : State) : State × List TranslationRequest :=
  let s1 := { s with startDisabled := false, stopDisabled := true }
  if jsTrim s1.origValue ≠ "" then
    sendForTranslationStart s1 (jsTrim s1.origValue)
  else
    (s1, [])

/-- `startBtn.onclick`: reset the transcript and the textarea, show the
working placeholder, set the recognition locale from the source selector,
and flip the start/stop buttons.  It does not touch `playBtn.disabled`. -/
def startCapture (s : State) : State :=
  { s with
    finalTranscript := "",
    origValue := "",
    translatedText := "Translating...",
    recLang := jsOr (mapLangCode s.sourceLang) "en-US",
    startDisabled := true,
    stopDisabled := false }

/-- `stopBtn.onclick`: ask the provider to stop and disable the stop button. -/
def stopCapture (s : State) : State :=
  { s with stopDisabled := true }

/-- An observable action on the synthesis provider. -/
inductive SynthAction where
  | cancel
  | speak (text : String) (voice : Option Voice)
  | alertUnsupported

deriving instance DecidableEq, Repr for SynthAction

/-- The voice put on the utterance by `speakText`: when the voice list is
non-empty, the first voice whose (truthy) lang starts with the mapped locale
of the target code; otherwise none is set. -/
def chooseVoice (voices : List Voice) (lang : String) : Option Voice :=
  if voices.length ≠ 0 then
    voices.find? (fun x =>
      (!(x.lang == "")) && x.lang.startsWith (mapLocaleFromCode lang))
  else none

/-- `speakText(text, lang)` as the sequence of synthesis actions it performs:
an alert when the platform lacks `speechSynthesis`, otherwise a `cancel()`
followed by `speak()` of the utterance. -/
def speakText (synthSupported : Bool) (text lang : String)
    (voices : List Voice) : List SynthAction :=
  if !synthSupported then [SynthAction.alertUnsupported]
  else [SynthAction.cancel, SynthAction.speak text (chooseVoice voices lang)]

/-- `playBtn.onclick`: no-op when the translated div is empty, otherwise
speak its text with the current target language. -/
def playback (synthSupported : Bool) (s : State) (voices : List Voice) :
    List SynthAction :=
  let t := jsOr s.translatedText ""
  if t = "" then [] else speakText synthSupported t s.targetLang voices

/-- Every event that can reach the handlers of `main.js`. -/
inductive Event where
  | startCapture
  | stopCapture
  | recognitionUpdate (results : List RecResult)
  | recognitionError
  | captureEnd
  | translationSettled (outcome : Except String TranslationResponse)
  | playbackClick
  | setSourceLang (code : String)
  | setTargetLang (code : String)

/-- The state transition of one event: each constructor dispatches to the
corresponding handler; `recognition.onerror` only logs and `playBtn.onclick`
only talks to the synthesis provider, so both leave the state unchanged. -/
def step (s : State) (e : Event) : State :=
  match e with
  | Event.startCapture => startCapture s
  | Event.stopCapture => stopCapture s
  | Event.recognitionUpdate results => onRecognitionUpdate s results
  | Event.recognitionError => s
  | Event.captureEnd => (onCaptureEnd s).1
  | Event.translationSettled outcome => handleTranslationResponse s outcome
  | Event.playbackClick => s
  | Event.setSourceLang c => { s with sourceLang := c }
  | Event.setTargetLang c => { s with targetLang := c }

/-- A concrete page state used to instantiate general theorems. -/
def sampleState : State :=
  { finalTranscript := "", origValue := "", translatedText := "",
    startDisabled := false, stopDisabled := true, playDisabled := true,
    recLang := "en-US", sourceLang := "en", targetLang := "es" }

/-- The shapes a single `playBtn.onclick` trace can take: nothing, the
unsupported-platform alert, or a cancel followed by one speak. -/
def clickTrace (tr : List SynthAction) : Prop :=
  tr = [] ∨ tr = [SynthAction.alertUnsupported] ∨
  ∃ t v, tr = [SynthAction.cancel, SynthAction.speak t v]

theorem batchStep_foldl (rs : List RecResult) (f i : String) :
    rs.foldl batchStep (f, i)
      = (f ++ joinSegs (finalsOf rs), i ++ joinAll (interimsOf rs)) := by
  induction rs generalizing f i with
  | nil => simp [finalsOf, interimsOf, joinSegs, joinAll]
  | cons r rs ih =>
    cases hf : r.isFinal with
    | true =>
      simp [batchStep, hf, ih, finalsOf, interimsOf, joinSegs, joinAll,
        String.append_assoc]
    | false =>
      simp [batchStep, hf, ih, finalsOf, interimsOf, joinSegs, joinAll,
        String.append_assoc]

theorem onRecognitionUpdate_finalTranscript (s : State)
    (rs : List RecResult) :
    (onRecognitionUpdate s rs).finalTranscript
      = s.finalTranscript ++ joinSegs (finalsOf rs) := by
  simp [onRecognitionUpdate, batchStep_foldl]

theorem onRecognitionUpdate_origValue (s : State) (rs : List RecResult) :
    (onRecognitionUpdate s rs).origValue
      = jsTrim (s.finalTranscript ++ joinSegs (finalsOf rs)
          ++ joinAll (interimsOf rs)) := by
  simp [onRecognitionUpdate, batchStep_foldl]

theorem interimOf_eq (rs : List RecResult) :
    interimOf rs = joinAll (interimsOf rs) := by
  simp [interimOf, batchStep_foldl]

theorem processBatches_cons (s : State) (b : List RecResult)
    (bs : List (List RecResult)) :
    processBatches s (b :: bs) = processBatches (onRecognitionUpdate s b) bs :=
  rfl

theorem processBatches_append (s : State) (a b : List (List RecResult)) :
    processBatches s (a ++ b) = processBatches (processBatches s a) b := by
  simp [processBatches, List.foldl_append]

theorem processBatches_noFinals (s : State) (bs : List (List RecResult))
    (h : ∀ b ∈ bs, finalsOf b = []) :
    (processBatches s bs).finalTranscript = s.finalTranscript := by
  induction bs generalizing s with
  | nil => rfl
  | cons b bs ih =>
    rw [processBatches_cons, ih _ (fun x hx => h x (List.mem_cons_of_mem _ hx)),
      onRecognitionUpdate_finalTranscript, h b (List.mem_cons_self _ _)]
    simp [joinSegs]

theorem jsOr_of_ne_empty (a b : String) (ha : a ≠ "") : jsOr a b = a := by
  unfold jsOr
  rw [if_neg ha]

theorem mapLangCode_ne_empty (c : String) : mapLangCode c ≠ "" := by
  unfold mapLangCode jsOr
  split
  · simp
  · simpa using by assumption

theorem playback_clickTrace (sup : Bool) (s : State) (voices : List Voice) :
    clickTrace (playback sup s voices) := by
  unfold clickTrace playback speakText
  by_cases ht : jsOr s.translatedText "" = ""
  · rw [if_pos ht]
    exact Or.inl rfl
  · rw [if_neg ht]
    cases sup
    · exact Or.inr (Or.inl rfl)
    · exact Or.inr (Or.inr ⟨_, _, rfl⟩)

theorem clickTrace_cancel_before_speak (a b : List SynthAction)
    (ha : clickTrace a) (hb : clickTrace b) (i : Nat) (t : String)
    (v : Option Voice)
    (h : (a ++ b).get? i = some (SynthAction.speak t v)) :
    i ≠ 0 ∧ (a ++ b).get? (i - 1) = some SynthAction.cancel := by
  have hlen : i < (a ++ b).length := by
    by_contra hc
    rw [List.get?_eq_none.mpr (Nat.le_of_not_lt hc)] at h
    exact Option.noConfusion h
  rcases ha with ha | ha | ⟨t1, v1, ha⟩ <;>
    rcases hb with hb | hb | ⟨t2, v2, hb⟩ <;> subst ha <;> subst hb <;>
    simp only [List.length_append, List.length_cons, List.length_nil,
      List.nil_append, List.append_nil, List.cons_append] at hlen h <;>
    interval_cases i <;> simp_all

/-- C1: when a capture ends, `recognition.onend` issues exactly one
translation request, carrying the trimmed displayed text and the
then-current source and target language codes, if that trimmed text is
non-empty, and issues no request if it is empty. -/
theorem onCaptureEnd_requests (s : State) :
    (jsTrim s.origValue ≠ "" →
      (onCaptureEnd s).2
        = [{ text := jsTrim s.origValue, source := s.sourceLang,
             target := s.targetLang }]) ∧
    (jsTrim s.origValue = "" → (onCaptureEnd s).2 = []) := by
  constructor
  · intro h
    simp [onCaptureEnd, sendForTranslationStart, h]
  · intro h
    simp [onCaptureEnd, h]

theorem onCaptureEnd_requests_witness :
    (onCaptureEnd { sampleState with origValue := "hello" }).2
        = [{ text := "hello", source := "en", target := "es" }] ∧
    (onCaptureEnd sampleState).2 = [] := by
  constructor
  · have h := (onCaptureEnd_requests { sampleState with origValue := "hello" }).1
      (by decide)
    rw [h]
    decide
  · exact (onCaptureEnd_requests sampleState).2 (by decide)

/-- C2 counterexample: one `onresult` batch holding two non-final results
`"a"` then `"b"` leaves the batch-local interim text `"ab"` — the
concatenation — not the text `"b"` of the last non-final result, because the
loop runs `interim += transcript`. -/
theorem interim_batch_counterexample :
    interimOf [{ transcript := "a", isFinal := false },
               { transcript := "b", isFinal := false }] = "ab" ∧
    interimOf [{ transcript := "a", isFinal := false },
               { transcript := "b", isFinal := false }] ≠ "b" := by
  decide

/-- C2 amended: in one `onresult` batch, each final result appends its text
plus one trailing space to `finalTranscript`, and the interim text is the
concatenation of the texts of ALL non-final results of the batch; the
accumulator is reset at the start of each batch, so interim text never
survives from one batch into the next (two consecutive single-result
non-final batches `"he"` then `"hello"` leave the display ending in
`"hello"`, not `"hehello"`). -/
theorem onRecognitionUpdate_batch_spec (s : State) (results : List RecResult) :
    (onRecognitionUpdate s results).finalTranscript
        = s.finalTranscript ++ joinSegs (finalsOf results) ∧
    (onRecognitionUpdate s results).origValue
        = jsTrim (s.finalTranscript ++ joinSegs (finalsOf results)
            ++ joinAll (interimsOf results)) ∧
    interimOf results = joinAll (interimsOf results) ∧
    (onRecognitionUpdate
        (onRecognitionUpdate s [{ transcript := "he", isFinal := false }])
        [{ transcript := "hello", isFinal := false }]).origValue
      = jsTrim (s.finalTranscript ++ "hello") := by
  refine ⟨onRecognitionUpdate_finalTranscript s results,
    onRecognitionUpdate_origValue s results, interimOf_eq results, ?_⟩
  simp [onRecognitionUpdate, batchStep]

/-- C3 counterexample: `startBtn.onclick` never writes `playBtn.disabled`,
so starting a new capture from a state whose playback control is enabled
(as it is after a successful translation) leaves it enabled, refuting
"startCapture ... leave[s] the playback control disabled". -/
theorem startCapture_playback_counterexample :
    ¬ ((step { sampleState with
                 playDisabled := false,
                 translatedText := "hola" } Event.startCapture).playDisabled
        = true) := by
  decide

/-- C3 amended: every translate call leaves the playback control disabled
and the display showing the working placeholder, and the playback control
is still disabled after the response unless the translation completed
successfully; startCapture shows the working placeholder and clears the raw
text — so a previous session's text is no longer displayed — but leaves the
playback control's disabled flag unchanged. -/
theorem translate_playback_discipline (s : State) (text : String)
    (outcome : Except String TranslationResponse) :
    ((step s Event.startCapture).translatedText = "Translating..." ∧
     (step s Event.startCapture).origValue = "" ∧
     (step s Event.startCapture).playDisabled = s.playDisabled) ∧
    ((sendForTranslationStart s text).1.playDisabled = true ∧
     (sendForTranslationStart s text).1.translatedText = "Translating...") ∧
    ((handleTranslationResponse (sendForTranslationStart s text).1
        outcome).playDisabled = false →
      ∃ j, outcome = Except.ok j ∧ j.error = "") := by
  refine ⟨⟨rfl, rfl, rfl⟩, ⟨rfl, rfl⟩, ?_⟩
  intro h
  match outcome with
  | Except.error err =>
    simp [handleTranslationResponse, sendForTranslationStart] at h
  | Except.ok j =>
    by_cases he : j.error = ""
    · exact ⟨j, rfl, he⟩
    · simp [handleTranslationResponse, sendForTranslationStart, he] at h

theorem translate_playback_discipline_witness :
    ∃ j, (Except.ok { error := "", detail := "", translated := "hola" } :
        Except String TranslationResponse) = Except.ok j ∧ j.error = "" :=
  (translate_playback_discipline sampleState "hi"
      (Except.ok { error := "", detail := "", translated := "hola" })).2.2
    (by decide)

/-- C4: for a translation response with no error indicator, the displayed
translated text becomes the returned value — or the "(no translation)"
placeholder when that value is empty — and the playback control is enabled;
for a response carrying an error indicator, the displayed text is an error
message built from the detail field falling back to the error code, and the
playback control stays disabled. -/
theorem handleTranslationResponse_cases (s : State) (text : String)
    (j : TranslationResponse) :
    (j.error = "" →
      (handleTranslationResponse (sendForTranslationStart s text).1
          (Except.ok j)).translatedText
        = (if j.translated = "" then "(no translation)" else j.translated) ∧
      (handleTranslationResponse (sendForTranslationStart s text).1
          (Except.ok j)).playDisabled = false) ∧
    (j.error ≠ "" →
      (handleTranslationResponse (sendForTranslationStart s text).1
          (Except.ok j)).translatedText
        = "Error: " ++ (if j.detail = "" then j.error else j.detail) ∧
      (handleTranslationResponse (sendForTranslationStart s text).1
          (Except.ok j)).playDisabled = true) := by
  constructor
  · intro h
    constructor
    · simp [handleTranslationResponse, sendForTranslationStart, h, jsOr]
    · simp [handleTranslationResponse, sendForTranslationStart, h]
  · intro h
    constructor
    · simp [handleTranslationResponse, sendForTranslationStart, h, jsOr]
    · simp [handleTranslationResponse, sendForTranslationStart, h]

theorem handleTranslationResponse_cases_witness :
    ((handleTranslationResponse (sendForTranslationStart sampleState "hi").1
        (Except.ok { error := "", detail := "",
                     translated := "hola" })).playDisabled = false) ∧
    ((handleTranslationResponse (sendForTranslationStart sampleState "hi").1
        (Except.ok { error := "E", detail := "bad",
                     translated := "" })).playDisabled = true) :=
  ⟨((handleTranslationResponse_cases sampleState "hi"
      { error := "", detail := "", translated := "hola" }).1 (by decide)).2,
   ((handleTranslationResponse_cases sampleState "hi"
      { error := "E", detail := "bad", translated := "" }).2 (by decide)).2⟩

/-- C5: starting from a fresh capture, for any sequence of update batches
whose final segments are `"hello"` then `"world"` in order — with any
batches of purely interim results interleaved before and between them —
`finalTranscript` ends up `"hello world "` and the trimmed displayed text
ends up `"hello world"`. -/
theorem final_segments_hello_world (s : State)
    (pre mid : List (List RecResult))
    (hpre : ∀ b ∈ pre, finalsOf b = [])
    (hmid : ∀ b ∈ mid, finalsOf b = []) :
    (processBatches (step s Event.startCapture)
        (pre ++ [[{ transcript := "hello", isFinal := true }]] ++ mid
          ++ [[{ transcript := "world", isFinal := true }]])).finalTranscript
      = "hello world " ∧
    (processBatches (step s Event.startCapture)
        (pre ++ [[{ transcript := "hello", isFinal := true }]] ++ mid
          ++ [[{ transcript := "world", isFinal := true }]])).origValue
      = "hello world" := by
  have hsplit :
      processBatches (step s Event.startCapture)
          (pre ++ [[{ transcript := "hello", isFinal := true }]] ++ mid
            ++ [[{ transcript := "world", isFinal := true }]])
        = onRecognitionUpdate
            (processBatches
              (onRecognitionUpdate
                (processBatches (step s Event.startCapture) pre)
                [{ transcript := "hello", isFinal := true }])
              mid)
            [{ transcript := "world", isFinal := true }] := by
    rw [processBatches_append, processBatches_append, processBatches_append]
    rfl
  have h0 : (step s Event.startCapture).finalTranscript = "" := rfl
  have h1 : (processBatches (step s Event.startCapture) pre).finalTranscript
      = "" := by
    rw [processBatches_noFinals _ _ hpre, h0]
  have h2 : (onRecognitionUpdate
      (processBatches (step s Event.startCapture) pre)
      [{ transcript := "hello", isFinal := true }]).finalTranscript
        = "hello " := by
    rw [onRecognitionUpdate_finalTranscript, h1]
    decide
  have h3 : (processBatches
      (onRecognitionUpdate (processBatches (step s Event.startCapture) pre)
        [{ transcript := "hello", isFinal := true }]) mid).finalTranscript
        = "hello " := by
    rw [processBatches_noFinals _ _ hmid, h2]
  constructor
  · rw [hsplit, onRecognitionUpdate_finalTranscript, h3]
    decide
  · rw [hsplit, onRecognitionUpdate_origValue, h3]
    decide

theorem final_segments_hello_world_witness :
    (processBatches (step sampleState Event.startCapture)
        ([[{ transcript := "he", isFinal := false }]]
          ++ [[{ transcript := "hello", isFinal := true }]]
          ++ [[{ transcript := "wor", isFinal := false }]]
          ++ [[{ transcript := "world", isFinal := true }]])).finalTranscript
      = "hello world " ∧
    (processBatches (step sampleState Event.startCapture)
        ([[{ transcript := "he", isFinal := false }]]
          ++ [[{ transcript := "hello", isFinal := true }]]
          ++ [[{ transcript := "wor", isFinal := false }]]
          ++ [[{ transcript := "world", isFinal := true }]])).origValue
      = "hello world" :=
  final_segments_hello_world sampleState
    [[{ transcript := "he", isFinal := false }]]
    [[{ transcript := "wor", isFinal := false }]]
    (by decide) (by decide)

/-- C6: within a session `finalTranscript` is append-only — every event
other than startCapture leaves the previous value as a prefix of the new
value — and startCapture resets it to empty. -/
theorem finalTranscript_append_only (s : State) (e : Event) :
    (e = Event.startCapture → (step s e).finalTranscript = "") ∧
    (e ≠ Event.startCapture →
      ∃ r, (step s e).finalTranscript = s.finalTranscript ++ r) := by
  constructor
  · intro h
    subst h
    rfl
  · intro h
    match e with
    | Event.startCapture => exact absurd rfl h
    | Event.stopCapture => exact ⟨"", by simp [step, stopCapture]⟩
    | Event.recognitionUpdate rs =>
      exact ⟨joinSegs (finalsOf rs), onRecognitionUpdate_finalTranscript s rs⟩
    | Event.recognitionError => exact ⟨"", by simp [step]⟩
    | Event.captureEnd =>
      refine ⟨"", ?_⟩
      have hend : (onCaptureEnd s).1.finalTranscript = s.finalTranscript := by
        unfold onCaptureEnd sendForTranslationStart
        dsimp only
        split <;> rfl
      simpa [step] using hend
    | Event.translationSettled outcome =>
      refine ⟨"", ?_⟩
      cases outcome with
      | error err => simp [step, handleTranslationResponse]
      | ok j =>
        by_cases hj : j.error = "" <;>
          simp [step, handleTranslationResponse, hj]
    | Event.playbackClick => exact ⟨"", by simp [step]⟩
    | Event.setSourceLang c => exact ⟨"", by simp [step]⟩
    | Event.setTargetLang c => exact ⟨"", by simp [step]⟩

theorem finalTranscript_append_only_witness :
    (step sampleState Event.startCapture).finalTranscript = "" ∧
    ∃ r, (step sampleState Event.captureEnd).finalTranscript
        = sampleState.finalTranscript ++ r :=
  ⟨(finalTranscript_append_only sampleState Event.startCapture).1 rfl,
   (finalTranscript_append_only sampleState Event.captureEnd).2
     (fun h => Event.noConfusion h)⟩

/-- C7: a translate call that ends in transport failure displays a network
error message carrying the failure description, which can never coincide
with a service error message, and leaves the playback control disabled. -/
theorem transport_failure_behavior (s : State) (text err : String) :
    (handleTranslationResponse (sendForTranslationStart s text).1
        (Except.error err)).translatedText = "Network error: " ++ err ∧
    (handleTranslationResponse (sendForTranslationStart s text).1
        (Except.error err)).playDisabled = true ∧
    ∀ d, ("Network error: " ++ err) ≠ ("Error: " ++ d) := by
  refine ⟨rfl, rfl, ?_⟩
  intro d h
  have h2 := congrArg (fun x => x.data.head?) h
  simp [String.data_append] at h2

theorem transport_failure_behavior_witness :
    (handleTranslationResponse (sendForTranslationStart sampleState "hi").1
        (Except.error "timeout")).translatedText
      = "Network error: " ++ "timeout" ∧
    ("Network error: " ++ "timeout") ≠ ("Error: " ++ "timeout") :=
  ⟨(transport_failure_behavior sampleState "hi" "timeout").1,
   (transport_failure_behavior sampleState "hi" "timeout").2.2 "timeout"⟩

/-- C8: the language-code-to-locale mapping is total — `en`, `es`, `hi`,
`ta` map to their locales, `auto` and every unmapped code map to the
default `en-US` — and startCapture sets the recognition locale to the
mapping of the selected source language. -/
theorem mapLangCode_spec :
    mapLangCode "en" = "en-US" ∧ mapLangCode "es" = "es-ES" ∧
    mapLangCode "hi" = "hi-IN" ∧ mapLangCode "ta" = "ta-IN" ∧
    mapLangCode "auto" = "en-US" ∧
    (∀ c, c ≠ "en" → c ≠ "es" → c ≠ "hi" → c ≠ "ta" → c ≠ "auto" →
      mapLangCode c = "en-US") ∧
    (∀ s : State,
      (step s Event.startCapture).recLang = mapLangCode s.sourceLang) := by
  refine ⟨by decide, by decide, by decide, by decide, by decide, ?_, ?_⟩
  · intro c h1 h2 h3 h4 h5
    have b1 : (c == "en") = false := beq_eq_false_iff_ne.mpr h1
    have b2 : (c == "es") = false := beq_eq_false_iff_ne.mpr h2
    have b3 : (c == "hi") = false := beq_eq_false_iff_ne.mpr h3
    have b4 : (c == "ta") = false := beq_eq_false_iff_ne.mpr h4
    have b5 : (c == "auto") = false := beq_eq_false_iff_ne.mpr h5
    simp [mapLangCode, mapLangCodeTable, List.lookup, b1, b2, b3, b4, b5,
      jsOr]
  · intro s
    show jsOr (mapLangCode s.sourceLang) "en-US" = mapLangCode s.sourceLang
    exact jsOr_of_ne_empty _ _ (mapLangCode_ne_empty s.sourceLang)

theorem mapLangCode_spec_witness :
    mapLangCode "fr" = "en-US" :=
  mapLangCode_spec.2.2.2.2.2.1 "fr" (by decide) (by decide) (by decide)
    (by decide) (by decide)

/-- C9: in the synthesis actions of two successive playback invocations,
every `speak` is immediately preceded by a `cancel` — every invocation that
speaks first cancels any in-flight synthesis, so at most one utterance is
audible at a time. -/
theorem playback_cancel_before_speak (sup1 sup2 : Bool) (s1 s2 : State)
    (v1 v2 : List Voice) (i : Nat) (t : String) (v : Option Voice)
    (h : (playback sup1 s1 v1 ++ playback sup2 s2 v2).get? i
          = some (SynthAction.speak t v)) :
    i ≠ 0 ∧ (playback sup1 s1 v1 ++ playback sup2 s2 v2).get? (i - 1)
          = some SynthAction.cancel :=
  clickTrace_cancel_before_speak _ _ (playback_clickTrace sup1 s1 v1)
    (playback_clickTrace sup2 s2 v2) i t v h

theorem playback_cancel_before_speak_witness :
    (3 : Nat) ≠ 0 ∧
    (playback true { sampleState with translatedText := "hola" } []
        ++ playback true { sampleState with translatedText := "adios" }
            []).get? (3 - 1)
      = some SynthAction.cancel :=
  playback_cancel_before_speak true true
    { sampleState with translatedText := "hola" }
    { sampleState with translatedText := "adios" } [] [] 3 "adios" none
    (by decide)

/-- C10: a translation response whose body carries a truthy (non-empty)
error field takes the error branch even when a translated value is present
— the translated value is ignored and the playback flag is unchanged —
while a response whose error field is the empty string is treated as a
success. -/
theorem error_field_precedence (s : State) (j : TranslationResponse) :
    (j.error ≠ "" →
      (handleTranslationResponse s (Except.ok j)).translatedText
          = "Error: " ++ (if j.detail = "" then j.error else j.detail) ∧
      (handleTranslationResponse s (Except.ok j)).playDisabled
          = s.playDisabled) ∧
    (j.error = "" →
      (handleTranslationResponse s (Except.ok j)).playDisabled = false ∧
      (handleTranslationResponse s (Except.ok j)).translatedText
          = (if j.translated = "" then "(no translation)" else j.translated)) ∧
    (handleTranslationResponse s
        (Except.ok { error := "E", detail := "bad",
                     translated := "hola" })).translatedText
      = "Error: bad" := by
  refine ⟨?_, ?_, ?_⟩
  · intro h
    constructor
    · simp [handleTranslationResponse, h, jsOr]
    · simp [handleTranslationResponse, h]
  · intro h
    constructor
    · simp [handleTranslationResponse, h]
    · simp [handleTranslationResponse, h, jsOr]
  · simp [handleTranslationResponse, jsOr]

theorem error_field_precedence_witness :
    (handleTranslationResponse sampleState
        (Except.ok { error := "E", detail := "bad",
                     translated := "hola" })).playDisabled
      = sampleState.playDisabled ∧
    (handleTranslationResponse sampleState
        (Except.ok { error := "", detail := "",
                     translated := "hola" })).playDisabled = false :=
  ⟨((error_field_precedence sampleState
      { error := "E", detail := "bad", translated := "hola" }).1
        (by decide)).2,
   ((error_field_precedence sampleState
      { error := "", detail := "", translated := "hola" }).2.1
        (by decide)).1⟩

end HealthTranslate
